import Mathlib

/-!
Shallow embedding of the task/folder domain logic of the tasklist REST API
(`src/controllers/taskController.js`, `src/controllers/folderController.js`,
`src/models/task.js`, `src/models/folder.js`), together with theorems that
settle the specification claims about it.

The storage collaborator is modelled per its contract (§6 of the spec):
`findOne`/`findMany`/`updateOne`/`deleteOne`/`deleteMany` over two in-memory
collections, filters being conjunctions over `{id, owner, folderRef}`.
Mongoose-level behavior that the controllers rely on is modelled explicitly:
schema validation on `create` and on updates executed with
`runValidators: true` (the task schema's status enum is the two-valued
`['Pending', 'Completed']`, its `title` is required non-empty), defaulting of
`status` to `Pending`, and the absence of any validation on updates that do
not pass `runValidators`.
-/

namespace TaskApp

/-- JavaScript truthiness of an optional string field of a request body:
`undefined` and the empty string are falsy. -/
def truthy : Option String → Bool
  | none => false
  | some s => !(s == "")

/-- Hexadecimal digit test, used by the ObjectId format check. -/
def isHexDigitChar (c : Char) : Bool :=
  c.isDigit || ('a' ≤ c && c ≤ 'f') || ('A' ≤ c && c ≤ 'F')

/-- `mongoose.isValidObjectId` / `mongoose.Types.ObjectId.isValid`: a
24-character hexadecimal string, or any 12-character string. -/
def isValidObjectId (s : String) : Bool :=
  s.length == 12 || (s.length == 24 && s.toList.all isHexDigitChar)

def digitVal (c : Char) : Nat := c.toNat - 48

/-- `new Date(s)` followed by the `isNaN(d.getTime())` check, modelled on ISO
`YYYY-MM-DD` date strings; the result is the date encoded as
`(y * 100 + m) * 100 + d`. Any other shape fails to parse. -/
def jsParseDate (s : String) : Option Nat :=
  match s.toList with
  | [y1, y2, y3, y4, '-', m1, m2, '-', d1, d2] =>
    if ([y1, y2, y3, y4, m1, m2, d1, d2].all Char.isDigit) then
      let y := ((digitVal y1 * 10 + digitVal y2) * 10 + digitVal y3) * 10 + digitVal y4
      let m := digitVal m1 * 10 + digitVal m2
      let d := digitVal d1 * 10 + digitVal d2
      if 1 ≤ m && m ≤ 12 && 1 ≤ d && d ≤ 31 then some ((y * 100 + m) * 100 + d)
      else none
    else none
  | _ => none

/-- Fresh ObjectId generation by the storage layer: the record counter
rendered in base 16, zero-padded to 24 characters. -/
def genId (n : Nat) : String :=
  let ds := Nat.toDigits 16 n
  String.mk (List.replicate (24 - ds.length) '0' ++ ds)

/-- A Task record, per `src/models/task.js` (`title` required, `dueDate`
optional, `status` a string whose schema enum is `['Pending', 'Completed']`
with default `'Pending'`, `folder` an optional Folder reference, `user` the
owner). Dates are stored as their parsed encoding. -/
structure Task where
  id : String
  title : String
  dueDate : Option Nat
  status : String
  folder : Option String
  user : String
deriving Repr, DecidableEq

/-- A Folder record, per `src/models/folder.js` (`name` required, `user` the
owner, `tasks` the list of member Task ids). -/
structure Folder where
  id : String
  name : String
  user : String
  tasks : List String
deriving Repr, DecidableEq

/-- The two storage collections plus the fresh-id counter. -/
structure DB where
  tasks : List Task
  folders : List Folder
  nextId : Nat
deriving Repr, DecidableEq

/-- The task schema's status enum (`src/models/task.js` line 6). -/
def taskStatusEnum : List String := ["Pending", "Completed"]

/-- The three-valued status list the controllers check against
(`taskController.js` lines 36 and 185). -/
def controllerStatusList : List String := ["Pending", "Working", "Completed"]

/-- The schema's `required` validator on a string path: non-empty. -/
def validTitle (t : String) : Bool := !(t == "")

/-- `findOneAndUpdate(filter, u, { new: true })` on a collection: update the
first matching record, returning the updated record and the new collection. -/
def findOneAndUpdate {α : Type} (p : α → Bool) (u : α → α) : List α → Option α × List α
  | [] => (none, [])
  | x :: xs =>
    if p x then (some (u x), u x :: xs)
    else
      let r := findOneAndUpdate p u xs
      (r.1, x :: r.2)

/-- `findOneAndDelete(filter)` on a collection: remove the first matching
record, returning it and the new collection. -/
def findOneAndDelete {α : Type} (p : α → Bool) : List α → Option α × List α
  | [] => (none, [])
  | x :: xs =>
    if p x then (some x, xs)
    else
      let r := findOneAndDelete p xs
      (r.1, x :: r.2)

/-- `updateOne(filter, u)` on a collection: update the first matching record. -/
def updateFirst {α : Type} (p : α → Bool) (u : α → α) : List α → List α
  | [] => []
  | x :: xs => if p x then u x :: xs else x :: updateFirst p u xs

/-- A record returned in a response body: a task or a folder. -/
inductive Item where
  | task : Task → Item
  | folder : Folder → Item
deriving Repr, DecidableEq

/-- A JSON response body, as produced by the controllers. -/
inductive Body where
  | item : Item → Body
  | withMessage : String → Item → Body
  | taskList : List Task → Body
  | overview : List Task → List Folder → Body
  | message : String → Body
  | error : String → Body
deriving Repr, DecidableEq

/-- An HTTP response: status code and JSON body. -/
structure Resp where
  status : Nat
  body : Body
deriving Repr, DecidableEq

namespace TaskController

/-- The request body of `POST /api/v1/task` (`createTaskOrFolder`). -/
structure CreateInput where
  title : Option String
  dueDate : Option String
  status : Option String
  type : Option String
  folder : Option String
deriving Repr, DecidableEq

/-- The `dueDate` handling of `createTaskOrFolder` (lines 40-47): `none`
means the 400 "Invalid date format." path, `some none` means no due date,
`some (some d)` the parsed date. -/
def parseDueDateField (dueDate : Option String) : Option (Option Nat) :=
  if truthy dueDate then (jsParseDate (dueDate.getD "")).map some
  else some none

/-- The tail of `createTaskOrFolder` (lines 62-79): `Task.create` — which
runs the schema validators (required title, two-valued status enum), a
failure surfacing through the catch block as a 500 — followed, when the task
was placed in a folder, by `Folder.findByIdAndUpdate(folder, { $push:
{ tasks: newTask._id } })`, which matches on `_id` alone. -/
def createTaskRecord (db : DB) (userId : String) (b : CreateInput)
    (parsedDueDate : Option Nat) (inFolder : Bool) : Resp × DB :=
  let st := if truthy b.status then b.status.getD "" else "Pending"
  if !(validTitle (b.title.getD "")) || !(taskStatusEnum.contains st) then
    (⟨500, .error "Server error while creating task or folder."⟩, db)
  else
    let t : Task :=
      { id := genId db.nextId, title := b.title.getD "", dueDate := parsedDueDate,
        status := st,
        folder := if truthy b.folder then some (b.folder.getD "") else none,
        user := userId }
    let folders' :=
      if inFolder then
        updateFirst (fun f => f.id == b.folder.getD "")
          (fun f => { f with tasks := f.tasks ++ [t.id] }) db.folders
      else db.folders
    (⟨201, .withMessage "Task created successfully" (.task t)⟩,
     { db with tasks := db.tasks ++ [t], folders := folders', nextId := db.nextId + 1 })

/-- `createTaskOrFolder` (`taskController.js` lines 12-85). -/
def createTaskOrFolder (db : DB) (userId : String) (b : CreateInput) : Resp × DB :=
  if !(truthy b.title && truthy b.type) then
    (⟨400, .error "Title and type are required."⟩, db)
  else if b.type == some "folder" then
    let f : Folder := { id := genId db.nextId, name := b.title.getD "", user := userId, tasks := [] }
    (⟨201, .withMessage "Folder created successfully" (.folder f)⟩,
     { db with folders := db.folders ++ [f], nextId := db.nextId + 1 })
  else if truthy b.status && !(controllerStatusList.contains (b.status.getD "")) then
    (⟨400, .error "Invalid status value."⟩, db)
  else
    match parseDueDateField b.dueDate with
    | none => (⟨400, .error "Invalid date format."⟩, db)
    | some parsedDueDate =>
      if truthy b.folder then
        if !(isValidObjectId (b.folder.getD "")) then
          (⟨400, .error "Invalid folder ID format."⟩, db)
        else
          match db.folders.find? (fun f => f.id == b.folder.getD "" && f.user == userId) with
          | none => (⟨400, .error "Folder does not exist or does not belong to the user."⟩, db)
          | some _ => createTaskRecord db userId b parsedDueDate true
      else createTaskRecord db userId b parsedDueDate false

/-- `getAllTasksAndFolders` (lines 90-103). The sorts are on fields missing
from the schemas (`createdAt`, `folderName`) and therefore keep insertion
order. -/
def getAllTasksAndFolders (db : DB) (userId : String) : Resp :=
  ⟨200, .overview (db.tasks.filter (fun t => t.user == userId))
                  (db.folders.filter (fun f => f.user == userId))⟩

/-- `getTasksByFolder` (lines 108-121). -/
def getTasksByFolder (db : DB) (userId folderId : String) : Resp :=
  ⟨200, .taskList (db.tasks.filter (fun t => t.user == userId && t.folder == some folderId))⟩

/-- `getAllTasksWithoutFolder` (lines 126-138). -/
def getAllTasksWithoutFolder (db : DB) (userId : String) : Resp :=
  ⟨200, .taskList (db.tasks.filter (fun t => t.user == userId && t.folder == none))⟩

/-- `getTaskById` (lines 143-166): task lookup first, then folder lookup,
both filtered by `{_id, user}`; 404 when neither matches. -/
def getTaskById (db : DB) (userId taskId : String) : Resp :=
  match db.tasks.find? (fun t => t.id == taskId && t.user == userId) with
  | some t => ⟨200, .item (.task t)⟩
  | none =>
    match db.folders.find? (fun f => f.id == taskId && f.user == userId) with
    | some f => ⟨200, .item (.folder f)⟩
    | none => ⟨404, .error "Task or folder not found."⟩

/-- The request body of `PATCH /api/v1/task/:taskId`. -/
structure UpdateBody where
  title : Option String
  status : Option String
deriving Repr, DecidableEq

/-- `updateTaskStatus` (lines 171-223): builds `updateData` from the fields
present in the body (status must be in the controller's three-valued list),
rejects an empty patch, then `Task.findOneAndUpdate` with
`runValidators: true` — the update validators (required title, the schema's
two-valued status enum) run before the query and a failure surfaces through
the catch block as a 500 — and on a missed task falls back to
`Folder.findOneAndUpdate` with `title ? { name: title } : {}`. -/
def updateTaskStatus (db : DB) (userId taskId : String) (b : UpdateBody) : Resp × DB :=
  if b.status.isSome && !(controllerStatusList.contains (b.status.getD "")) then
    (⟨400, .error "Invalid status."⟩, db)
  else if b.title.isNone && b.status.isNone then
    (⟨400, .error "Provide at least title or status to update."⟩, db)
  else if (b.title.isSome && !(validTitle (b.title.getD ""))) ||
          (b.status.isSome && !(taskStatusEnum.contains (b.status.getD ""))) then
    (⟨500, .error "Server error while updating task or folder."⟩, db)
  else
    let r := findOneAndUpdate (fun t => t.id == taskId && t.user == userId)
      (fun t => { t with title := b.title.getD t.title, status := b.status.getD t.status })
      db.tasks
    match r.1 with
    | some t => (⟨200, .withMessage "Task or folder updated." (.task t)⟩, { db with tasks := r.2 })
    | none =>
      let rf := findOneAndUpdate (fun f => f.id == taskId && f.user == userId)
        (fun f => if truthy b.title then { f with name := b.title.getD "" } else f)
        db.folders
      match rf.1 with
      | some f => (⟨200, .withMessage "Task or folder updated." (.folder f)⟩, { db with folders := rf.2 })
      | none => (⟨404, .error "Task or folder not found."⟩, db)

/-- `deleteTaskOrFolder` (lines 228-275): parameter disambiguation, then
typed task delete, typed folder cascade (tasks first, folder second, 404
when the folder lookup misses — the tasks stay deleted), or the untyped
task-then-folder probe (there the folder is deleted first and its tasks
afterwards). -/
def deleteTaskOrFolder (db : DB) (userId : String) (ptype pid : Option String) : Resp × DB :=
  let ps :=
    if !(truthy pid) && truthy ptype && isValidObjectId (ptype.getD "") then
      ((none : Option String), ptype)
    else (ptype, pid)
  if !(truthy ps.2) then (⟨400, .error "Missing id parameter."⟩, db)
  else
    let id := ps.2.getD ""
    if ps.1 == some "task" then
      let r := findOneAndDelete (fun t => t.id == id && t.user == userId) db.tasks
      match r.1 with
      | none => (⟨404, .error "Task not found."⟩, db)
      | some _ => (⟨200, .message "Task deleted successfully."⟩, { db with tasks := r.2 })
    else if ps.1 == some "folder" then
      let tasks' := db.tasks.filter (fun t => !(t.folder == some id && t.user == userId))
      let r := findOneAndDelete (fun f => f.id == id && f.user == userId) db.folders
      match r.1 with
      | none => (⟨404, .error "Folder not found."⟩, { db with tasks := tasks' })
      | some _ =>
        (⟨200, .message "Folder and its tasks deleted successfully."⟩,
         { db with tasks := tasks', folders := r.2 })
    else
      let rt := findOneAndDelete (fun t => t.id == id && t.user == userId) db.tasks
      match rt.1 with
      | some _ => (⟨200, .message "Task deleted successfully."⟩, { db with tasks := rt.2 })
      | none =>
        let rf := findOneAndDelete (fun f => f.id == id && f.user == userId) db.folders
        match rf.1 with
        | some _ =>
          (⟨200, .message "Folder and its tasks deleted successfully."⟩,
           { db with folders := rf.2,
                     tasks := db.tasks.filter (fun t => !(t.folder == some id && t.user == userId)) })
        | none => (⟨404, .error "Task or folder not found."⟩, db)

end TaskController

namespace FolderController

/-- The `sanitize` helper of `folderController.js` (lines 5-8), applied to a
string route parameter: `String(val).trim()`, stripping leading and trailing
whitespace. -/
def sanitize (v : String) : String :=
  String.mk (((v.toList.dropWhile Char.isWhitespace).reverse.dropWhile Char.isWhitespace).reverse)

/-- `isValidId` (line 9). -/
def isValidId (id : String) : Bool := isValidObjectId (sanitize id)

/-- `createFolder` (lines 154-169). -/
def createFolder (db : DB) (userId : String) (name : Option String) : Resp × DB :=
  if !(truthy name) then (⟨400, .error "Folder name required"⟩, db)
  else
    let f : Folder := { id := genId db.nextId, name := name.getD "", user := userId, tasks := [] }
    (⟨201, .item (.folder f)⟩, { db with folders := db.folders ++ [f], nextId := db.nextId + 1 })

/-- `getFolderById` (lines 12-23); `populate('tasks')` only changes the
payload's task representation and is not modelled. -/
def getFolderById (db : DB) (userId idParam : String) : Resp :=
  let id := sanitize idParam
  if !(isValidId id) then ⟨400, .error "Invalid folder id"⟩
  else
    match db.folders.find? (fun f => f.id == id && f.user == userId) with
    | none => ⟨404, .error "Folder not found"⟩
    | some f => ⟨200, .item (.folder f)⟩

/-- `getTasksInFolder` (lines 26-36). -/
def getTasksInFolder (db : DB) (userId folderIdParam : String) : Resp :=
  let folderId := sanitize folderIdParam
  if !(isValidId folderId) then ⟨400, .error "Invalid folder id"⟩
  else ⟨200, .taskList (db.tasks.filter (fun t => t.folder == some folderId && t.user == userId))⟩

/-- The request body of `POST /api/v1/folders/:folderId/tasks`. -/
structure AddTaskBody where
  title : Option String
  dueDate : Option String
deriving Repr, DecidableEq

/-- `addTaskToFolder` (lines 39-61): folder ownership check, then
`Task.create` — whose schema validation (required title, dueDate cast)
surfaces failures through the catch block as a 500 — then a push of the new
task id onto the fetched folder document followed by `folder.save()`
(a write keyed on the folder's `_id`). -/
def addTaskToFolder (db : DB) (userId folderIdParam : String) (b : AddTaskBody) : Resp × DB :=
  let folderId := sanitize folderIdParam
  if !(isValidId folderId) then (⟨400, .error "Invalid folder id"⟩, db)
  else
    match db.folders.find? (fun f => f.id == folderId && f.user == userId) with
    | none => (⟨404, .error "Folder not found"⟩, db)
    | some f =>
      if !(validTitle (b.title.getD "")) then
        (⟨500, .error "Task validation failed"⟩, db)
      else if truthy b.dueDate && (jsParseDate (b.dueDate.getD "")).isNone then
        (⟨500, .error "Task validation failed"⟩, db)
      else
        let dd := if truthy b.dueDate then jsParseDate (b.dueDate.getD "") else none
        let t : Task :=
          { id := genId db.nextId, title := b.title.getD "", dueDate := dd,
            status := "Pending", folder := some f.id, user := userId }
        (⟨201, .item (.task t)⟩,
         { db with tasks := db.tasks ++ [t],
                   folders := updateFirst (fun x => x.id == f.id)
                     (fun x => { x with tasks := f.tasks ++ [t.id] }) db.folders,
                   nextId := db.nextId + 1 })

/-- The request body forwarded verbatim by `updateTaskInFolder`. -/
structure TaskPatchBody where
  title : Option String
  status : Option String
  dueDate : Option String
deriving Repr, DecidableEq

/-- `updateTaskInFolder` (lines 64-80): `req.body` is applied directly with
no `runValidators`, so no schema validation runs; only the cast of a
supplied `dueDate` can fail, which the local catch reports as a 400. -/
def updateTaskInFolder (db : DB) (userId folderIdParam taskIdParam : String)
    (b : TaskPatchBody) : Resp × DB :=
  let folderId := sanitize folderIdParam
  let taskId := sanitize taskIdParam
  if !(isValidId folderId && isValidId taskId) then (⟨400, .error "Invalid id(s)"⟩, db)
  else if b.dueDate.isSome && (jsParseDate (b.dueDate.getD "")).isNone then
    (⟨400, .error "Cast to Date failed"⟩, db)
  else
    let r := findOneAndUpdate
      (fun t => t.id == taskId && t.folder == some folderId && t.user == userId)
      (fun t => { t with
                  title := b.title.getD t.title,
                  status := b.status.getD t.status,
                  dueDate := (match b.dueDate with
                              | none => t.dueDate
                              | some s => jsParseDate s) })
      db.tasks
    match r.1 with
    | none => (⟨404, .error "Task not found"⟩, db)
    | some t => (⟨200, .item (.task t)⟩, { db with tasks := r.2 })

/-- `updateTaskStatus` (lines 83-99): sets `{ status: req.body.status }` with
no `runValidators`, so the stored status is not checked against any enum; an
`undefined` status is stripped by the driver and leaves the field unchanged. -/
def updateTaskStatus (db : DB) (userId folderIdParam taskIdParam : String)
    (status : Option String) : Resp × DB :=
  let folderId := sanitize folderIdParam
  let taskId := sanitize taskIdParam
  if !(isValidId folderId && isValidId taskId) then (⟨400, .error "Invalid id(s)"⟩, db)
  else
    let r := findOneAndUpdate
      (fun t => t.id == taskId && t.folder == some folderId && t.user == userId)
      (fun t => { t with status := status.getD t.status })
      db.tasks
    match r.1 with
    | none => (⟨404, .error "Task not found"⟩, db)
    | some t => (⟨200, .item (.task t)⟩, { db with tasks := r.2 })

/-- `deleteTaskInFolder` (lines 102-124): the task delete is filtered by
`{_id, folder, user}`, but the subsequent `Folder.updateOne({ _id: folderId },
{ $pull: { tasks: task._id } })` matches on `_id` alone, with no user filter. -/
def deleteTaskInFolder (db : DB) (userId folderIdParam taskIdParam : String) : Resp × DB :=
  let folderId := sanitize folderIdParam
  let taskId := sanitize taskIdParam
  if !(isValidId folderId && isValidId taskId) then (⟨400, .error "Invalid id(s)"⟩, db)
  else
    let r := findOneAndDelete
      (fun t => t.id == taskId && t.folder == some folderId && t.user == userId) db.tasks
    match r.1 with
    | none => (⟨404, .error "Task not found"⟩, db)
    | some t =>
      (⟨200, .message "Task deleted"⟩,
       { db with tasks := r.2,
                 folders := updateFirst (fun f => f.id == folderId)
                   (fun f => { f with tasks := f.tasks.filter (fun x => !(x == t.id)) })
                   db.folders })

/-- `resetProgress` (lines 127-137): `Task.updateMany({ folder: id, user },
{ status: 'Pending' })`, then an unconditional confirmation — no folder
existence or ownership check is performed. -/
def resetProgress (db : DB) (userId idParam : String) : Resp × DB :=
  let id := sanitize idParam
  if !(isValidId id) then (⟨400, .error "Invalid folder id"⟩, db)
  else
    (⟨200, .message "Folder progress reset"⟩,
     { db with tasks := db.tasks.map (fun t =>
         if t.folder == some id && t.user == userId then { t with status := "Pending" } else t) })

/-- `clearProgress` (lines 140-151): `Task.deleteMany({ folder: id, user })`,
then `Folder.findByIdAndUpdate(id, { tasks: [] })` — the folder write matches
on `_id` alone, with no user filter — then an unconditional confirmation. -/
def clearProgress (db : DB) (userId idParam : String) : Resp × DB :=
  let id := sanitize idParam
  if !(isValidId id) then (⟨400, .error "Invalid folder id"⟩, db)
  else
    (⟨200, .message "Folder progress cleared"⟩,
     { db with tasks := db.tasks.filter (fun t => !(t.folder == some id && t.user == userId)),
               folders := updateFirst (fun f => f.id == id)
                 (fun f => { f with tasks := [] }) db.folders })

end FolderController

/-- Well-formed storage: record identifiers are unique across both
collections (ObjectIds are globally unique). -/
def DB.WF (db : DB) : Prop :=
  (db.tasks.map Task.id ++ db.folders.map Folder.id).Nodup

/-- Removal of every record carrying a given id, used to compare a
cross-owner lookup with a lookup for an id matching no record at all. -/
def scrubId (db : DB) (i : String) : DB :=
  { db with tasks := db.tasks.filter (fun t => !(t.id == i)),
            folders := db.folders.filter (fun f => !(f.id == i)) }

/-- Every HTTP status the controllers can produce; there is no 403. -/
def okStatuses : List Nat := [200, 201, 400, 404, 500]

/-- Sample well-formed ObjectIds for concrete instantiations. -/
def idA : String := "aaaaaaaaaaaaaaaaaaaaaaaa"

def idB : String := "bbbbbbbbbbbbbbbbbbbbbbbb"

def idC : String := "cccccccccccccccccccccccc"

def emptyDB : DB := ⟨[], [], 0⟩

section Lemmas

theorem findOneAndUpdate_fst {α : Type} (p : α → Bool) (u : α → α) (l : List α) :
    (findOneAndUpdate p u l).1 = (l.find? p).map u := by
  induction l with
  | nil => rfl
  | cons x xs ih =>
    cases h : p x with
    | true => simp [findOneAndUpdate, h, List.find?_cons_of_pos _ h]
    | false =>
      simp only [findOneAndUpdate, h, Bool.false_eq_true, if_false]
      rw [List.find?_cons_of_neg _ (by simp [h]), ← ih]

theorem findOneAndDelete_fst {α : Type} (p : α → Bool) (l : List α) :
    (findOneAndDelete p l).1 = l.find? p := by
  induction l with
  | nil => rfl
  | cons x xs ih =>
    cases h : p x with
    | true => simp [findOneAndDelete, h, List.find?_cons_of_pos _ h]
    | false =>
      simp only [findOneAndDelete, h, Bool.false_eq_true, if_false]
      rw [List.find?_cons_of_neg _ (by simp [h]), ← ih]

theorem mem_findOneAndDelete_snd {α : Type} {p : α → Bool} {l : List α} {y : α}
    (hy : y ∈ (findOneAndDelete p l).2) : y ∈ l := by
  induction l with
  | nil => simp [findOneAndDelete] at hy
  | cons x xs ih =>
    cases h : p x with
    | true =>
      simp only [findOneAndDelete, h, if_true] at hy
      exact List.mem_cons_of_mem _ hy
    | false =>
      simp only [findOneAndDelete, h, Bool.false_eq_true, if_false, List.mem_cons] at hy
      rcases hy with rfl | hy
      · exact List.mem_cons_self _ _
      · exact List.mem_cons_of_mem _ (ih hy)

/-- After deleting the first record matching a key-determined filter from a
collection with pairwise-distinct keys, no record with that key remains. -/
theorem findOneAndDelete_no_key {α κ : Type} [DecidableEq κ] (key : α → κ) (p : α → Bool)
    (k : κ) (hp : ∀ x, p x = true → key x = k) :
    ∀ (l : List α), (l.map key).Nodup → (l.find? p).isSome →
      ∀ y ∈ (findOneAndDelete p l).2, key y ≠ k := by
  intro l
  induction l with
  | nil => intro _ hs; simp [List.find?] at hs
  | cons x xs ih =>
    intro hnd hs y hy
    simp only [List.map_cons, List.nodup_cons] at hnd
    cases h : p x with
    | true =>
      simp only [findOneAndDelete, h, if_true] at hy
      intro hk
      apply hnd.1
      rw [hp x h, ← hk]
      exact List.mem_map_of_mem key hy
    | false =>
      simp only [findOneAndDelete, h, Bool.false_eq_true, if_false, List.mem_cons] at hy
      rw [List.find?_cons_of_neg _ (by simp [h])] at hs
      rcases hy with rfl | hy
      · intro hk
        rcases Option.isSome_iff_exists.mp hs with ⟨m, hm⟩
        apply hnd.1
        rw [hk, ← hp m (List.find?_some hm)]
        exact List.mem_map_of_mem key (List.mem_of_find?_eq_some hm)
      · exact ih hnd.2 hs y hy

theorem findOneAndUpdate_snd_of_find? {α : Type} {p : α → Bool} {u : α → α} {l : List α}
    {x : α} (h : l.find? p = some x) : u x ∈ (findOneAndUpdate p u l).2 := by
  induction l with
  | nil => simp [List.find?] at h
  | cons y ys ih =>
    cases hy : p y with
    | true =>
      rw [List.find?_cons_of_pos _ hy] at h
      cases h
      simp [findOneAndUpdate, hy]
    | false =>
      rw [List.find?_cons_of_neg _ (by simp [hy])] at h
      simp only [findOneAndUpdate, hy, Bool.false_eq_true, if_false, List.mem_cons]
      exact Or.inr (ih h)

theorem taskStatusEnum_subset {s : String} (h : s ∈ taskStatusEnum) :
    s ∈ controllerStatusList := by
  simp only [taskStatusEnum, List.mem_cons, List.not_mem_nil, or_false] at h
  rcases h with rfl | rfl <;> simp [controllerStatusList]

end Lemmas

/-- C1 counterexample: `Working` is accepted by the controller's status list
but rejected by the task schema's two-valued enum, so creating a task with
status `Working` yields a 500 and stores nothing — the claim's assertion
that all three enumerated values are accepted and stored is false. -/
theorem c1_working_counterexample :
    TaskController.createTaskOrFolder emptyDB "u"
        ⟨some "t", none, some "Working", some "task", none⟩ =
      (⟨500, .error "Server error while creating task or folder."⟩, emptyDB) := by
  decide

/-- C1 (amended): at creation, a supplied non-empty status outside
{Pending, Working, Completed} is rejected with a 400 ValidationError;
`Pending` and `Completed` are accepted and stored, and an omitted status
defaults to `Pending`; `Working` passes the controller check but is rejected
by the schema enum, surfacing as a 500 with nothing stored. At update, a
status outside the three-valued list is rejected with 400; `Pending` and
`Completed` are applied to the matched task whatever its previous status (no
transition-validity check); `Working` surfaces as a 500 with nothing stored. -/
theorem c1_status_enum_amended (db : DB) (u title s tid : String) (t : Task)
    (htitle : title ≠ "") :
    (s ≠ "" → s ∉ controllerStatusList →
      TaskController.createTaskOrFolder db u ⟨some title, none, some s, some "task", none⟩ =
        (⟨400, .error "Invalid status value."⟩, db))
    ∧ (s ∈ taskStatusEnum →
      ∃ t' : Task, t'.status = s ∧ t'.title = title ∧ t'.user = u ∧
        TaskController.createTaskOrFolder db u ⟨some title, none, some s, some "task", none⟩ =
          (⟨201, .withMessage "Task created successfully" (.task t')⟩,
           { db with tasks := db.tasks ++ [t'], nextId := db.nextId + 1 }))
    ∧ (∃ t' : Task, t'.status = "Pending" ∧ t'.title = title ∧ t'.user = u ∧
        TaskController.createTaskOrFolder db u ⟨some title, none, none, some "task", none⟩ =
          (⟨201, .withMessage "Task created successfully" (.task t')⟩,
           { db with tasks := db.tasks ++ [t'], nextId := db.nextId + 1 }))
    ∧ (TaskController.createTaskOrFolder db u ⟨some title, none, some "Working", some "task", none⟩ =
        (⟨500, .error "Server error while creating task or folder."⟩, db))
    ∧ (s ∉ controllerStatusList →
      TaskController.updateTaskStatus db u tid ⟨none, some s⟩ =
        (⟨400, .error "Invalid status."⟩, db))
    ∧ (s ∈ taskStatusEnum →
      db.tasks.find? (fun x => x.id == tid && x.user == u) = some t →
      (TaskController.updateTaskStatus db u tid ⟨none, some s⟩).1 =
        ⟨200, .withMessage "Task or folder updated." (.task { t with status := s })⟩)
    ∧ (TaskController.updateTaskStatus db u tid ⟨none, some "Working"⟩ =
        (⟨500, .error "Server error while updating task or folder."⟩, db)) := by
  have htb : (title == "") = false := by simpa using htitle
  refine ⟨?_, ?_, ?_, ?_, ?_, ?_, ?_⟩
  · intro hs hmem
    have hsb : (s == "") = false := by simpa using hs
    have hc : controllerStatusList.contains s = false := by
      rcases h : controllerStatusList.contains s with _ | _
      · rfl
      · exact absurd (List.elem_iff.mp h) hmem
    simp only [TaskController.createTaskOrFolder, truthy, htb, hsb, hc]
    simp
    exact fun h => absurd h hmem
  · intro hmem
    simp only [taskStatusEnum, List.mem_cons, List.not_mem_nil, or_false] at hmem
    rcases hmem with rfl | rfl <;>
    · refine ⟨⟨genId db.nextId, title, none, _, none, u⟩, rfl, rfl, rfl, ?_⟩
      simp [TaskController.createTaskOrFolder, TaskController.createTaskRecord,
        TaskController.parseDueDateField, truthy, htb, validTitle,
        controllerStatusList, taskStatusEnum]
  · refine ⟨⟨genId db.nextId, title, none, "Pending", none, u⟩, rfl, rfl, rfl, ?_⟩
    simp [TaskController.createTaskOrFolder, TaskController.createTaskRecord,
      TaskController.parseDueDateField, truthy, htb, validTitle,
      controllerStatusList, taskStatusEnum]
  · simp [TaskController.createTaskOrFolder, TaskController.createTaskRecord,
      TaskController.parseDueDateField, truthy, htb, validTitle,
      controllerStatusList, taskStatusEnum]
  · intro hmem
    have hc : controllerStatusList.contains s = false := by
      rcases h : controllerStatusList.contains s with _ | _
      · rfl
      · exact absurd (List.elem_iff.mp h) hmem
    simp [TaskController.updateTaskStatus, hc]
    exact fun h => absurd h hmem
  · intro hmem hfind
    simp only [taskStatusEnum, List.mem_cons, List.not_mem_nil, or_false] at hmem
    rcases hmem with rfl | rfl <;>
    · simp only [TaskController.updateTaskStatus, Option.isSome_some, Option.isSome_none,
        Option.isNone_none, Option.isNone_some, Option.getD_some, controllerStatusList,
        taskStatusEnum, validTitle]
      simp only [findOneAndUpdate_fst, hfind]
      simp
  · simp only [TaskController.updateTaskStatus, Option.isSome_some, Option.isNone_none,
      Option.isNone_some, Option.getD_some, controllerStatusList, taskStatusEnum, validTitle]
    simp

/-- Witness for the amended C1 theorem at concrete inputs: a status outside
the three-valued list is rejected with a 400 at creation. -/
theorem c1_status_enum_amended_witness :
    ("t" : String) ≠ "" ∧
    TaskController.createTaskOrFolder emptyDB "u"
        ⟨some "t", none, some "Bogus", some "task", none⟩ =
      (⟨400, .error "Invalid status value."⟩, emptyDB) :=
  ⟨by decide,
   (c1_status_enum_amended emptyDB "u" "t" "Bogus" idB ⟨idB, "x", none, "Pending", none, "u"⟩
      (by decide)).1 (by decide) (by decide)⟩

/-- C2 fails on the code: `clearProgress` invoked by owner `u2` rewrites the
`tasks` list of a Folder owned by `u1`, because
`Folder.findByIdAndUpdate(id, { tasks: [] })` carries no user filter
(`folderController.js` line 146). The folder record of `u1` is changed by an
operation of `u2`. -/
theorem c2_clearProgress_cross_owner_write :
    (FolderController.clearProgress
        ⟨[⟨idB, "t1", none, "Pending", some idA, "u1"⟩], [⟨idA, "F", "u1", [idB]⟩], 5⟩
        "u2" idA).2.folders = [⟨idA, "F", "u1", []⟩] ∧
    (FolderController.clearProgress
        ⟨[⟨idB, "t1", none, "Pending", some idA, "u1"⟩], [⟨idA, "F", "u1", [idB]⟩], 5⟩
        "u2" idA).2.folders ≠ [⟨idA, "F", "u1", [idB]⟩] := by
  decide

/-- C8 counterexample: on a database that contains no folder at all, both
`resetProgress` and `clearProgress` return their 200 confirmation instead of
the NotFoundError the claim requires. -/
theorem c8_counterexample :
    (FolderController.resetProgress emptyDB "u" idA).1 = ⟨200, .message "Folder progress reset"⟩ ∧
    (FolderController.clearProgress emptyDB "u" idA).1 = ⟨200, .message "Folder progress cleared"⟩ ∧
    emptyDB.folders = [] := by
  decide

/-- C8 (amended): `resetProgress` and `clearProgress` perform no folder
existence or ownership check: for every well-formed folder id they return
their confirmation whether or not a Folder with that id is owned by the
caller, and only a malformed id is rejected (with a 400 ValidationError);
NotFoundError is never produced. -/
theorem c8_amended (db : DB) (u idp : String) :
    (FolderController.isValidId (FolderController.sanitize idp) = true →
      (FolderController.resetProgress db u idp).1 = ⟨200, .message "Folder progress reset"⟩ ∧
      (FolderController.clearProgress db u idp).1 = ⟨200, .message "Folder progress cleared"⟩)
    ∧ (FolderController.isValidId (FolderController.sanitize idp) = false →
      (FolderController.resetProgress db u idp).1 = ⟨400, .error "Invalid folder id"⟩ ∧
      (FolderController.clearProgress db u idp).1 = ⟨400, .error "Invalid folder id"⟩) := by
  refine ⟨fun h => ?_, fun h => ?_⟩ <;>
  · simp only [FolderController.isValidId] at h
    simp [FolderController.resetProgress, FolderController.clearProgress,
      FolderController.isValidId, h]

/-- Witness for the amended C8 theorem at concrete inputs. -/
theorem c8_amended_witness :
    FolderController.isValidId (FolderController.sanitize idA) = true ∧
    (FolderController.resetProgress emptyDB "u" idA).1 = ⟨200, .message "Folder progress reset"⟩ :=
  ⟨by decide, ((c8_amended emptyDB "u" idA).1 (by decide)).1⟩

/-- C10: `createTaskOrFolder` creates a folder exactly when the `type`
discriminator equals `"folder"`; any other non-empty `type` value makes the
request take the very same path as `type = "task"`, with full task
validation, rather than being rejected. -/
theorem c10_type_dispatch (db : DB) (u : String) (b : TaskController.CreateInput)
    (ht : truthy b.title = true) (hty : truthy b.type = true) :
    (b.type = some "folder" →
      TaskController.createTaskOrFolder db u b =
        (⟨201, .withMessage "Folder created successfully"
            (.folder ⟨genId db.nextId, b.title.getD "", u, []⟩)⟩,
         { db with folders := db.folders ++ [⟨genId db.nextId, b.title.getD "", u, []⟩],
                   nextId := db.nextId + 1 }))
    ∧ (b.type ≠ some "folder" →
      TaskController.createTaskOrFolder db u b =
        TaskController.createTaskOrFolder db u { b with type := some "task" }) := by
  have h1 : truthy (some "folder") = true := by decide
  have h2 : truthy (some "task") = true := by decide
  constructor
  · intro hf
    simp [TaskController.createTaskOrFolder, ht, hf, h1]
  · intro hf
    have hfb : (b.type == some "folder") = false := by
      simpa using hf
    simp [TaskController.createTaskOrFolder, TaskController.createTaskRecord, ht, hty, hfb, h2]

/-- C4: `getTaskById` returns the Task with the requested id owned by the
caller when one exists; otherwise the Folder with that id owned by the
caller when one exists; and it fails with the 404 NotFoundError exactly when
neither a Task nor a Folder with that id is owned by the caller. -/
theorem c4_getById_polymorphic (db : DB) (u i : String) :
    (TaskController.getTaskById db u i = ⟨404, .error "Task or folder not found."⟩ ↔
      (∀ t ∈ db.tasks, ¬(t.id = i ∧ t.user = u)) ∧
      (∀ f ∈ db.folders, ¬(f.id = i ∧ f.user = u)))
    ∧ ((∃ t ∈ db.tasks, t.id = i ∧ t.user = u) →
      ∃ t ∈ db.tasks, t.id = i ∧ t.user = u ∧
        TaskController.getTaskById db u i = ⟨200, .item (.task t)⟩)
    ∧ ((∀ t ∈ db.tasks, ¬(t.id = i ∧ t.user = u)) →
      (∃ f ∈ db.folders, f.id = i ∧ f.user = u) →
      ∃ f ∈ db.folders, f.id = i ∧ f.user = u ∧
        TaskController.getTaskById db u i = ⟨200, .item (.folder f)⟩) := by
  cases hT : db.tasks.find? (fun t => t.id == i && t.user == u) with
  | some t =>
    have hmem := List.mem_of_find?_eq_some hT
    have hp := List.find?_some hT
    simp only [Bool.and_eq_true, beq_iff_eq] at hp
    refine ⟨⟨fun h => ?_, fun h => ?_⟩, fun _ => ?_, fun hall _ => ?_⟩
    · simp [TaskController.getTaskById, hT] at h
    · exact absurd ⟨hp.1, hp.2⟩ (h.1 t hmem)
    · exact ⟨t, hmem, hp.1, hp.2, by simp [TaskController.getTaskById, hT]⟩
    · exact absurd ⟨hp.1, hp.2⟩ (hall t hmem)
  | none =>
    have hnoneT : ∀ t ∈ db.tasks, ¬(t.id = i ∧ t.user = u) := by
      intro t ht hc
      have := List.find?_eq_none.mp hT t ht
      simp [hc.1, hc.2] at this
    cases hF : db.folders.find? (fun f => f.id == i && f.user == u) with
    | some f =>
      have hmem := List.mem_of_find?_eq_some hF
      have hp := List.find?_some hF
      simp only [Bool.and_eq_true, beq_iff_eq] at hp
      refine ⟨⟨fun h => ?_, fun h => ?_⟩, fun hex => ?_, fun _ _ => ?_⟩
      · simp [TaskController.getTaskById, hT, hF] at h
      · exact absurd ⟨hp.1, hp.2⟩ (h.2 f hmem)
      · rcases hex with ⟨t, ht, h1, h2⟩
        exact absurd ⟨h1, h2⟩ (hnoneT t ht)
      · exact ⟨f, hmem, hp.1, hp.2, by simp [TaskController.getTaskById, hT, hF]⟩
    | none =>
      have hnoneF : ∀ f ∈ db.folders, ¬(f.id = i ∧ f.user = u) := by
        intro f hf hc
        have := List.find?_eq_none.mp hF f hf
        simp [hc.1, hc.2] at this
      refine ⟨⟨fun _ => ⟨hnoneT, hnoneF⟩, fun _ => ?_⟩, fun hex => ?_, fun _ hex => ?_⟩
      · simp [TaskController.getTaskById, hT, hF]
      · rcases hex with ⟨t, ht, h1, h2⟩
        exact absurd ⟨h1, h2⟩ (hnoneT t ht)
      · rcases hex with ⟨f, hf, h1, h2⟩
        exact absurd ⟨h1, h2⟩ (hnoneF f hf)

/-- Witness for C4 at a concrete input: on the empty database the lookup
reports 404. -/
theorem c4_getById_polymorphic_witness :
    TaskController.getTaskById emptyDB "u" idA = ⟨404, .error "Task or folder not found."⟩ :=
  (c4_getById_polymorphic emptyDB "u" idA).1.mpr (by simp [emptyDB])

/-- C6: for a task-typed create carrying a non-null folder reference, a
malformed folder id is rejected with a 400 ValidationError and the database
is untouched (the outcome is the same for every database, so no lookup can
have influenced it); and when the referenced folder does not exist or
belongs to a different owner, the operation fails with the database
untouched — no Task record is created and no Folder record is modified. -/
theorem c6_folder_ref_checked (db : DB) (u : String) (b : TaskController.CreateInput)
    (ht : truthy b.title = true) (hty : truthy b.type = true) (htyf : b.type ≠ some "folder")
    (hs : truthy b.status = true → b.status.getD "" ∈ controllerStatusList)
    (hd : TaskController.parseDueDateField b.dueDate ≠ none)
    (hf : truthy b.folder = true) :
    (isValidObjectId (b.folder.getD "") = false →
      TaskController.createTaskOrFolder db u b =
        (⟨400, .error "Invalid folder ID format."⟩, db))
    ∧ (isValidObjectId (b.folder.getD "") = true →
      (∀ f ∈ db.folders, ¬(f.id = b.folder.getD "" ∧ f.user = u)) →
      TaskController.createTaskOrFolder db u b =
        (⟨400, .error "Folder does not exist or does not belong to the user."⟩, db)) := by
  have hfb : (b.type == some "folder") = false := by simpa using htyf
  have hst : ¬(truthy b.status = true ∧ b.status.getD "" ∉ controllerStatusList) := by
    rintro ⟨h1, h2⟩
    exact h2 (hs h1)
  rcases Option.ne_none_iff_exists'.mp hd with ⟨pd, hpd⟩
  constructor
  · intro hbad
    simp [TaskController.createTaskOrFolder, ht, hty, hfb, hst, hpd, hf, hbad]
  · intro hok hall
    have hfind : db.folders.find? (fun f => f.id == b.folder.getD "" && f.user == u) = none := by
      rw [List.find?_eq_none]
      intro f hfmem
      simp only [Bool.and_eq_true, beq_iff_eq, not_and]
      intro h1 h2
      exact hall f hfmem ⟨h1, h2⟩
    simp [TaskController.createTaskOrFolder, ht, hty, hfb, hst, hpd, hf, hok, hfind]

/-- Witness for C6 at concrete inputs: the malformed folder id `"xyz"` is
rejected with a 400 on the empty database. -/
theorem c6_folder_ref_checked_witness :
    isValidObjectId "xyz" = false ∧
    TaskController.createTaskOrFolder emptyDB "u"
        ⟨some "t", none, none, some "task", some "xyz"⟩ =
      (⟨400, .error "Invalid folder ID format."⟩, emptyDB) :=
  ⟨by decide,
   (c6_folder_ref_checked emptyDB "u" ⟨some "t", none, none, some "task", some "xyz"⟩
      (by decide) (by decide) (by decide) (by decide) (by decide) (by decide)).1 (by decide)⟩

/-- C9: `resetProgress` sets every task of the caller under the folder to
`Pending` and changes nothing else: the folder collection (hence every
`taskRefs` list) is untouched, the number of tasks is unchanged, and every
task keeps its id, title, dueDate, folder and owner, tasks of other owners
or other folders being kept entirely intact. -/
theorem c9_resetProgress_frame (db : DB) (u idp : String)
    (hv : FolderController.isValidId (FolderController.sanitize idp) = true) :
    (FolderController.resetProgress db u idp).1 = ⟨200, .message "Folder progress reset"⟩
    ∧ (FolderController.resetProgress db u idp).2.folders = db.folders
    ∧ (FolderController.resetProgress db u idp).2.tasks.length = db.tasks.length
    ∧ List.Forall₂ (fun t t' =>
        t'.id = t.id ∧ t'.title = t.title ∧ t'.dueDate = t.dueDate ∧
        t'.folder = t.folder ∧ t'.user = t.user ∧
        ((t.folder = some (FolderController.sanitize idp) ∧ t.user = u) →
          t'.status = "Pending") ∧
        (¬(t.folder = some (FolderController.sanitize idp) ∧ t.user = u) → t' = t))
      db.tasks (FolderController.resetProgress db u idp).2.tasks := by
  simp only [FolderController.isValidId] at hv
  simp only [FolderController.resetProgress, FolderController.isValidId, hv, Bool.not_true,
    Bool.false_eq_true, if_false]
  refine ⟨by trivial, by trivial, by simp, ?_⟩
  rw [List.forall₂_map_right_iff]
  rw [List.forall₂_same]
  intro x hx
  cases hcond : (x.folder == some (FolderController.sanitize idp) && x.user == u) with
  | true =>
    simp only [Bool.and_eq_true, beq_iff_eq] at hcond
    refine ⟨?_, ?_, ?_, ?_, ?_, fun _ => ?_, fun hn => absurd hcond hn⟩ <;>
      simp [hcond]
  | false =>
    have hncond : ¬(x.folder = some (FolderController.sanitize idp) ∧ x.user = u) := by
      rintro ⟨h1, h2⟩
      simp [h1, h2] at hcond
    refine ⟨?_, ?_, ?_, ?_, ?_, fun hc => absurd hc hncond, fun _ => ?_⟩ <;>
      simp [hcond]

/-- Witness for C9 at a concrete database holding one completed task under
the folder. -/
theorem c9_resetProgress_frame_witness :
    FolderController.isValidId (FolderController.sanitize idA) = true ∧
    (FolderController.resetProgress
        ⟨[⟨idB, "t1", none, "Completed", some idA, "u"⟩], [⟨idA, "F", "u", [idB]⟩], 7⟩
        "u" idA).1 = ⟨200, .message "Folder progress reset"⟩ :=
  ⟨by decide,
   (c9_resetProgress_frame
      ⟨[⟨idB, "t1", none, "Completed", some idA, "u"⟩], [⟨idA, "F", "u", [idB]⟩], 7⟩
      "u" idA (by decide)).1⟩

/-- Witness for C10 at concrete inputs: a `type` of `"banana"` is processed
exactly as a task creation. -/
theorem c10_type_dispatch_witness :
    truthy (some "t") = true ∧ truthy (some "banana") = true ∧
    TaskController.createTaskOrFolder emptyDB "u"
        ⟨some "t", none, none, some "banana", none⟩ =
      TaskController.createTaskOrFolder emptyDB "u"
        ⟨some "t", none, none, some "task", none⟩ :=
  ⟨by decide, by decide,
   (c10_type_dispatch emptyDB "u" ⟨some "t", none, none, some "banana", none⟩
      (by decide) (by decide)).2 (by decide)⟩

/-- C5 counterexample: with a matching Task present and the patch
`{status: "Working"}`, the status field present in the patch is not applied:
`Working` passes the controller check but the schema's two-valued enum
rejects it under `runValidators`, so the request fails with a 500 and the
task keeps its previous status. -/
theorem c5_counterexample :
    TaskController.updateTaskStatus
        ⟨[⟨idB, "t1", none, "Pending", none, "u"⟩], [], 5⟩ "u" idB ⟨none, some "Working"⟩ =
      (⟨500, .error "Server error while updating task or folder."⟩,
       ⟨[⟨idB, "t1", none, "Pending", none, "u"⟩], [], 5⟩) := by
  decide

/-- C5 (amended): for a patch that carries at least one of title/status,
whose title (if present) is non-empty and whose status (if present) is
`Pending` or `Completed`: when a Task with the id and owner exists, exactly
the fields present in the patch are applied to it and absent fields are
untouched (id, owner, dueDate and folder always kept); when no Task matches
but a Folder does, the Folder is renamed using the patch's title alone
(left unchanged when only a status was supplied) and the task collection is
untouched; and the 404 NotFoundError is returned exactly when neither
exists. -/
theorem c5_updateById_amended (db : DB) (u i : String) (b : TaskController.UpdateBody)
    (hne : b.title ≠ none ∨ b.status ≠ none)
    (hT : ∀ s, b.title = some s → s ≠ "")
    (hS : ∀ s, b.status = some s → s ∈ taskStatusEnum) :
    ((∃ t ∈ db.tasks, t.id = i ∧ t.user = u) →
      ∃ t ∈ db.tasks, t.id = i ∧ t.user = u ∧
      ∃ t' : Task,
        (TaskController.updateTaskStatus db u i b).1 =
          ⟨200, .withMessage "Task or folder updated." (.task t')⟩ ∧
        t'.id = t.id ∧ t'.user = t.user ∧ t'.dueDate = t.dueDate ∧ t'.folder = t.folder ∧
        (∀ s, b.title = some s → t'.title = s) ∧ (b.title = none → t'.title = t.title) ∧
        (∀ s, b.status = some s → t'.status = s) ∧ (b.status = none → t'.status = t.status) ∧
        t' ∈ (TaskController.updateTaskStatus db u i b).2.tasks ∧
        (TaskController.updateTaskStatus db u i b).2.folders = db.folders)
    ∧ ((∀ t ∈ db.tasks, ¬(t.id = i ∧ t.user = u)) →
       (∃ f ∈ db.folders, f.id = i ∧ f.user = u) →
      ∃ f ∈ db.folders, f.id = i ∧ f.user = u ∧
      ∃ f' : Folder,
        (TaskController.updateTaskStatus db u i b).1 =
          ⟨200, .withMessage "Task or folder updated." (.folder f')⟩ ∧
        f'.id = f.id ∧ f'.user = f.user ∧ f'.tasks = f.tasks ∧
        (∀ s, b.title = some s → f'.name = s) ∧ (b.title = none → f' = f) ∧
        (TaskController.updateTaskStatus db u i b).2.tasks = db.tasks)
    ∧ ((∀ t ∈ db.tasks, ¬(t.id = i ∧ t.user = u)) →
       (∀ f ∈ db.folders, ¬(f.id = i ∧ f.user = u)) →
      TaskController.updateTaskStatus db u i b =
        (⟨404, .error "Task or folder not found."⟩, db)) := by
  have hG1 : (b.status.isSome && !(controllerStatusList.contains (b.status.getD ""))) = false := by
    cases hb : b.status with
    | none => simp
    | some s => simp [taskStatusEnum_subset (hS s hb)]
  have hG2 : (b.title.isNone && b.status.isNone) = false := by
    rcases hne with h | h <;> cases hb : b.title <;> cases hc : b.status <;> simp_all
  have hG3 : ((b.title.isSome && !(validTitle (b.title.getD ""))) ||
              (b.status.isSome && !(taskStatusEnum.contains (b.status.getD "")))) = false := by
    cases hb : b.title with
    | none =>
      cases hc : b.status with
      | none => simp
      | some s => simp [hS s hc]
    | some s1 =>
      have h1 : validTitle s1 = true := by simpa [validTitle] using hT s1 hb
      cases hc : b.status with
      | none => simp [h1]
      | some s => simp [h1, hS s hc]
  have hP1 : ¬(b.status.isSome = true ∧ b.status.getD "" ∉ controllerStatusList) := by
    rintro ⟨h1, h2⟩
    rcases Option.isSome_iff_exists.mp h1 with ⟨s, hs⟩
    rw [hs] at h2
    exact h2 (taskStatusEnum_subset (hS s hs))
  have hP2 : ¬(b.title.isNone = true ∧ b.status.isNone = true) := by
    rintro ⟨h1, h2⟩
    rcases hne with h | h
    · exact h (Option.isNone_iff_eq_none.mp h1)
    · exact h (Option.isNone_iff_eq_none.mp h2)
  have hP3 : ¬((b.title.isSome = true ∧ validTitle (b.title.getD "") = false) ∨
               (b.status.isSome = true ∧ b.status.getD "" ∉ taskStatusEnum)) := by
    rintro (⟨h1, h2⟩ | ⟨h1, h2⟩)
    · rcases Option.isSome_iff_exists.mp h1 with ⟨s, hs⟩
      rw [hs] at h2
      have hv : validTitle s = true := by simpa [validTitle] using hT s hs
      rw [Option.getD_some] at h2
      rw [hv] at h2
      cases h2
    · rcases Option.isSome_iff_exists.mp h1 with ⟨s, hs⟩
      rw [hs] at h2
      exact h2 (hS s hs)
  refine ⟨?_, ?_, ?_⟩
  · intro hex
    have hsome : (db.tasks.find? (fun t => t.id == i && t.user == u)).isSome := by
      rw [List.find?_isSome]
      rcases hex with ⟨t, ht, h1, h2⟩
      exact ⟨t, ht, by simp [h1, h2]⟩
    rcases Option.isSome_iff_exists.mp hsome with ⟨t0, hfind⟩
    have ht0mem := List.mem_of_find?_eq_some hfind
    have ht0p := List.find?_some hfind
    simp only [Bool.and_eq_true, beq_iff_eq] at ht0p
    refine ⟨t0, ht0mem, ht0p.1, ht0p.2,
      ⟨{ t0 with title := b.title.getD t0.title, status := b.status.getD t0.status },
       ?_, rfl, rfl, rfl, rfl, ?_, ?_, ?_, ?_, ?_, ?_⟩⟩
    · simp [TaskController.updateTaskStatus, hG1, hG2, hG3, hP1, hP2, hP3, findOneAndUpdate_fst, hfind]
    · intro s hs; simp [hs]
    · intro hs; simp [hs]
    · intro s hs; simp [hs]
    · intro hs; simp [hs]
    · have hm := findOneAndUpdate_snd_of_find?
        (u := fun t => { t with title := b.title.getD t.title, status := b.status.getD t.status })
        hfind
      simpa [TaskController.updateTaskStatus, hG1, hG2, hG3, hP1, hP2, hP3,
        findOneAndUpdate_fst, hfind] using hm
    · simp [TaskController.updateTaskStatus, hG1, hG2, hG3, hP1, hP2, hP3, findOneAndUpdate_fst, hfind]
  · intro hall hex
    have hnone : db.tasks.find? (fun t => t.id == i && t.user == u) = none := by
      rw [List.find?_eq_none]
      intro t ht
      simp only [Bool.and_eq_true, beq_iff_eq, not_and]
      intro h1 h2
      exact hall t ht ⟨h1, h2⟩
    have hsome : (db.folders.find? (fun f => f.id == i && f.user == u)).isSome := by
      rw [List.find?_isSome]
      rcases hex with ⟨f, hf, h1, h2⟩
      exact ⟨f, hf, by simp [h1, h2]⟩
    rcases Option.isSome_iff_exists.mp hsome with ⟨f0, hfind⟩
    have hf0mem := List.mem_of_find?_eq_some hfind
    have hf0p := List.find?_some hfind
    simp only [Bool.and_eq_true, beq_iff_eq] at hf0p
    refine ⟨f0, hf0mem, hf0p.1, hf0p.2, ?_⟩
    have hPs : ¬(b.status.isSome = true ∧ b.status.getD "" ∉ taskStatusEnum) :=
      fun h => hP3 (Or.inr h)
    cases hb : b.title with
    | none =>
      have hbs : b.status ≠ none := by
        rcases hne with h | h
        · exact absurd hb h
        · exact h
      refine ⟨f0, ?_, rfl, rfl, rfl, ?_, fun _ => rfl, ?_⟩
      · simp [TaskController.updateTaskStatus, hG1, hG2, hG3, hP1, hP2, hP3, hPs, hbs,
          findOneAndUpdate_fst, hnone, hfind, hb, truthy]
      · intro s hs
        exact nomatch hs
      · simp [TaskController.updateTaskStatus, hG1, hG2, hG3, hP1, hP2, hP3, hPs, hbs,
          findOneAndUpdate_fst, hnone, hfind, hb, truthy]
    | some s1 =>
      have hs1 : truthy (some s1) = true := by
        simpa [truthy] using hT s1 hb
      have hvt : validTitle s1 = true := by
        simpa [validTitle] using hT s1 hb
      refine ⟨{ f0 with name := s1 }, ?_, rfl, rfl, rfl, ?_, ?_, ?_⟩
      · simp [TaskController.updateTaskStatus, hG1, hG2, hG3, hP1, hP2, hP3, hPs,
          findOneAndUpdate_fst, hnone, hfind, hb, hs1, hvt]
      · intro s hs
        cases hs
        rfl
      · intro hc
        exact nomatch hc
      · simp [TaskController.updateTaskStatus, hG1, hG2, hG3, hP1, hP2, hP3, hPs,
          findOneAndUpdate_fst, hnone, hfind, hb, hs1, hvt]
  · intro hallT hallF
    have hnoneT : db.tasks.find? (fun t => t.id == i && t.user == u) = none := by
      rw [List.find?_eq_none]
      intro t ht
      simp only [Bool.and_eq_true, beq_iff_eq, not_and]
      intro h1 h2
      exact hallT t ht ⟨h1, h2⟩
    have hnoneF : db.folders.find? (fun f => f.id == i && f.user == u) = none := by
      rw [List.find?_eq_none]
      intro f hf
      simp only [Bool.and_eq_true, beq_iff_eq, not_and]
      intro h1 h2
      exact hallF f hf ⟨h1, h2⟩
    simp [TaskController.updateTaskStatus, hG1, hG2, hG3, hP1, hP2, hP3, findOneAndUpdate_fst, hnoneT, hnoneF]

/-- Witness for the amended C5 theorem: on the empty database a valid
title-only patch yields the 404 NotFoundError. -/
theorem c5_updateById_amended_witness :
    TaskController.updateTaskStatus emptyDB "u" idB ⟨some "new", none⟩ =
      (⟨404, .error "Task or folder not found."⟩, emptyDB) :=
  (c5_updateById_amended emptyDB "u" idB ⟨some "new", none⟩ (Or.inl (by decide))
    (fun s hs => by cases hs; decide) (fun s hs => nomatch hs)).2.2
    (by simp [emptyDB]) (by simp [emptyDB])

theorem createTaskOrFolder_status (db : DB) (u : String) (b : TaskController.CreateInput) :
    (TaskController.createTaskOrFolder db u b).1.status ∈ okStatuses := by
  unfold TaskController.createTaskOrFolder TaskController.createTaskRecord
  try dsimp only
  repeat' split
  all_goals simp [okStatuses]

theorem getAllTasksAndFolders_status (db : DB) (u : String) :
    (TaskController.getAllTasksAndFolders db u).status ∈ okStatuses := by
  simp [TaskController.getAllTasksAndFolders, okStatuses]

theorem getTasksByFolder_status (db : DB) (u fid : String) :
    (TaskController.getTasksByFolder db u fid).status ∈ okStatuses := by
  simp [TaskController.getTasksByFolder, okStatuses]

theorem getAllTasksWithoutFolder_status (db : DB) (u : String) :
    (TaskController.getAllTasksWithoutFolder db u).status ∈ okStatuses := by
  simp [TaskController.getAllTasksWithoutFolder, okStatuses]

theorem getTaskById_status (db : DB) (u i : String) :
    (TaskController.getTaskById db u i).status ∈ okStatuses := by
  unfold TaskController.getTaskById
  try dsimp only
  repeat' split
  all_goals simp [okStatuses]

theorem updateTaskStatus_status (db : DB) (u i : String) (b : TaskController.UpdateBody) :
    (TaskController.updateTaskStatus db u i b).1.status ∈ okStatuses := by
  unfold TaskController.updateTaskStatus
  try dsimp only
  repeat' split
  all_goals simp [okStatuses]

theorem deleteTaskOrFolder_status (db : DB) (u : String) (pt pi : Option String) :
    (TaskController.deleteTaskOrFolder db u pt pi).1.status ∈ okStatuses := by
  unfold TaskController.deleteTaskOrFolder
  try dsimp only
  repeat' split
  all_goals simp [okStatuses]

theorem createFolder_status (db : DB) (u : String) (n : Option String) :
    (FolderController.createFolder db u n).1.status ∈ okStatuses := by
  unfold FolderController.createFolder
  try dsimp only
  repeat' split
  all_goals simp [okStatuses]

theorem getFolderById_status (db : DB) (u i : String) :
    (FolderController.getFolderById db u i).status ∈ okStatuses := by
  unfold FolderController.getFolderById
  try dsimp only
  repeat' split
  all_goals simp [okStatuses]

theorem getTasksInFolder_status (db : DB) (u i : String) :
    (FolderController.getTasksInFolder db u i).status ∈ okStatuses := by
  unfold FolderController.getTasksInFolder
  try dsimp only
  repeat' split
  all_goals simp [okStatuses]

theorem addTaskToFolder_status (db : DB) (u i : String) (b : FolderController.AddTaskBody) :
    (FolderController.addTaskToFolder db u i b).1.status ∈ okStatuses := by
  unfold FolderController.addTaskToFolder
  try dsimp only
  repeat' split
  all_goals simp [okStatuses]

theorem updateTaskInFolder_status (db : DB) (u i j : String)
    (b : FolderController.TaskPatchBody) :
    (FolderController.updateTaskInFolder db u i j b).1.status ∈ okStatuses := by
  unfold FolderController.updateTaskInFolder
  try dsimp only
  repeat' split
  all_goals simp [okStatuses]

theorem folder_updateTaskStatus_status (db : DB) (u i j : String) (st : Option String) :
    (FolderController.updateTaskStatus db u i j st).1.status ∈ okStatuses := by
  unfold FolderController.updateTaskStatus
  try dsimp only
  repeat' split
  all_goals simp [okStatuses]

theorem deleteTaskInFolder_status (db : DB) (u i j : String) :
    (FolderController.deleteTaskInFolder db u i j).1.status ∈ okStatuses := by
  unfold FolderController.deleteTaskInFolder
  try dsimp only
  repeat' split
  all_goals simp [okStatuses]

theorem resetProgress_status (db : DB) (u i : String) :
    (FolderController.resetProgress db u i).1.status ∈ okStatuses := by
  unfold FolderController.resetProgress
  try dsimp only
  repeat' split
  all_goals simp [okStatuses]

theorem clearProgress_status (db : DB) (u i : String) :
    (FolderController.clearProgress db u i).1.status ∈ okStatuses := by
  unfold FolderController.clearProgress
  try dsimp only
  repeat' split
  all_goals simp [okStatuses]

/-- C7: a record owned by a different user is reported by `getTaskById` with
the very same 404 NotFoundError outcome as an id matching no record at all
(the response equals the one computed on the database with every record of
that id removed), and no operation of either controller can produce any
status outside {200, 201, 400, 404, 500} — in particular no distinct 403
"forbidden" outcome exists that could reveal the record's existence. -/
theorem c7_ownership_hiding (db : DB) (u i : String)
    (hT : ∀ t ∈ db.tasks, t.id = i → t.user ≠ u)
    (hF : ∀ f ∈ db.folders, f.id = i → f.user ≠ u) :
    TaskController.getTaskById db u i = ⟨404, .error "Task or folder not found."⟩
    ∧ TaskController.getTaskById db u i = TaskController.getTaskById (scrubId db i) u i
    ∧ (∀ (db2 : DB) (u2 : String) (b : TaskController.CreateInput),
        (TaskController.createTaskOrFolder db2 u2 b).1.status ∈ okStatuses)
    ∧ (∀ (db2 : DB) (u2 : String), (TaskController.getAllTasksAndFolders db2 u2).status ∈ okStatuses)
    ∧ (∀ (db2 : DB) (u2 f2 : String), (TaskController.getTasksByFolder db2 u2 f2).status ∈ okStatuses)
    ∧ (∀ (db2 : DB) (u2 : String), (TaskController.getAllTasksWithoutFolder db2 u2).status ∈ okStatuses)
    ∧ (∀ (db2 : DB) (u2 i2 : String), (TaskController.getTaskById db2 u2 i2).status ∈ okStatuses)
    ∧ (∀ (db2 : DB) (u2 i2 : String) (b : TaskController.UpdateBody),
        (TaskController.updateTaskStatus db2 u2 i2 b).1.status ∈ okStatuses)
    ∧ (∀ (db2 : DB) (u2 : String) (pt pi : Option String),
        (TaskController.deleteTaskOrFolder db2 u2 pt pi).1.status ∈ okStatuses)
    ∧ (∀ (db2 : DB) (u2 : String) (n : Option String),
        (FolderController.createFolder db2 u2 n).1.status ∈ okStatuses)
    ∧ (∀ (db2 : DB) (u2 i2 : String), (FolderController.getFolderById db2 u2 i2).status ∈ okStatuses)
    ∧ (∀ (db2 : DB) (u2 i2 : String), (FolderController.getTasksInFolder db2 u2 i2).status ∈ okStatuses)
    ∧ (∀ (db2 : DB) (u2 i2 : String) (b : FolderController.AddTaskBody),
        (FolderController.addTaskToFolder db2 u2 i2 b).1.status ∈ okStatuses)
    ∧ (∀ (db2 : DB) (u2 i2 j2 : String) (b : FolderController.TaskPatchBody),
        (FolderController.updateTaskInFolder db2 u2 i2 j2 b).1.status ∈ okStatuses)
    ∧ (∀ (db2 : DB) (u2 i2 j2 : String) (st : Option String),
        (FolderController.updateTaskStatus db2 u2 i2 j2 st).1.status ∈ okStatuses)
    ∧ (∀ (db2 : DB) (u2 i2 j2 : String),
        (FolderController.deleteTaskInFolder db2 u2 i2 j2).1.status ∈ okStatuses)
    ∧ (∀ (db2 : DB) (u2 i2 : String), (FolderController.resetProgress db2 u2 i2).1.status ∈ okStatuses)
    ∧ (∀ (db2 : DB) (u2 i2 : String), (FolderController.clearProgress db2 u2 i2).1.status ∈ okStatuses) := by
  have hfT : db.tasks.find? (fun t => t.id == i && t.user == u) = none := by
    rw [List.find?_eq_none]
    intro t ht
    simp only [Bool.and_eq_true, beq_iff_eq, not_and]
    intro h1 h2
    exact hT t ht h1 h2
  have hfF : db.folders.find? (fun f => f.id == i && f.user == u) = none := by
    rw [List.find?_eq_none]
    intro f hf
    simp only [Bool.and_eq_true, beq_iff_eq, not_and]
    intro h1 h2
    exact hF f hf h1 h2
  have hsT : (scrubId db i).tasks.find? (fun t => t.id == i && t.user == u) = none := by
    rw [List.find?_eq_none]
    intro t ht
    have hmem := List.mem_filter.mp ht
    simp only [Bool.and_eq_true, beq_iff_eq, not_and]
    intro h1 _
    simp [h1] at hmem
  have hsF : (scrubId db i).folders.find? (fun f => f.id == i && f.user == u) = none := by
    rw [List.find?_eq_none]
    intro f hf
    have hmem := List.mem_filter.mp hf
    simp only [Bool.and_eq_true, beq_iff_eq, not_and]
    intro h1 _
    simp [h1] at hmem
  refine ⟨?_, ?_, createTaskOrFolder_status, getAllTasksAndFolders_status,
    getTasksByFolder_status, getAllTasksWithoutFolder_status, getTaskById_status,
    updateTaskStatus_status, deleteTaskOrFolder_status, createFolder_status,
    getFolderById_status, getTasksInFolder_status, addTaskToFolder_status,
    updateTaskInFolder_status, folder_updateTaskStatus_status, deleteTaskInFolder_status,
    resetProgress_status, clearProgress_status⟩
  · simp [TaskController.getTaskById, hfT, hfF]
  · simp [TaskController.getTaskById, hfT, hfF, hsT, hsF]

/-- Witness for C7 at a concrete input: a folder owned by `u1` is reported
to `u2` as a plain 404. -/
theorem c7_ownership_hiding_witness :
    TaskController.getTaskById ⟨[], [⟨idA, "F", "u1", []⟩], 3⟩ "u2" idA =
      ⟨404, .error "Task or folder not found."⟩ :=
  (c7_ownership_hiding ⟨[], [⟨idA, "F", "u1", []⟩], 3⟩ "u2" idA
    (by simp) (by decide)).1

/-- C3: deleting with the explicit `folder` type hint removes every Task of
the caller whose `folder` field equals the id — whether or not the Folder
lookup then succeeds — keeps every other task, deletes the Folder itself and
confirms with a 200 exactly when a Folder with that id is owned by the
caller, failing with the 404 NotFoundError otherwise; after a successful
cascade on a well-formed database, `getTaskById` yields the 404
NotFoundError both for the folder id and for each former child task id. -/
theorem c3_folder_cascade_delete (db : DB) (u fid : String) (hfid : fid ≠ "") :
    (∀ t ∈ db.tasks, t.folder = some fid → t.user = u →
      t ∉ (TaskController.deleteTaskOrFolder db u (some "folder") (some fid)).2.tasks)
    ∧ (∀ t ∈ db.tasks, ¬(t.folder = some fid ∧ t.user = u) →
      t ∈ (TaskController.deleteTaskOrFolder db u (some "folder") (some fid)).2.tasks)
    ∧ ((∀ f ∈ db.folders, ¬(f.id = fid ∧ f.user = u)) →
      (TaskController.deleteTaskOrFolder db u (some "folder") (some fid)).1 =
        ⟨404, .error "Folder not found."⟩)
    ∧ ((∃ f ∈ db.folders, f.id = fid ∧ f.user = u) →
      (TaskController.deleteTaskOrFolder db u (some "folder") (some fid)).1 =
        ⟨200, .message "Folder and its tasks deleted successfully."⟩)
    ∧ (DB.WF db → (∃ f ∈ db.folders, f.id = fid ∧ f.user = u) →
      TaskController.getTaskById
          (TaskController.deleteTaskOrFolder db u (some "folder") (some fid)).2 u fid =
        ⟨404, .error "Task or folder not found."⟩
      ∧ (∀ t ∈ db.tasks, t.folder = some fid → t.user = u →
        TaskController.getTaskById
            (TaskController.deleteTaskOrFolder db u (some "folder") (some fid)).2 u t.id =
          ⟨404, .error "Task or folder not found."⟩)) := by
  have htr : truthy (some fid) = true := by simpa [truthy] using hfid
  have hout : ∀ t ∈ db.tasks, t.folder = some fid → t.user = u →
      t ∉ db.tasks.filter (fun x => !(x.folder == some fid && x.user == u)) := by
    intro t ht h1 h2 hmem
    have := (List.mem_filter.mp hmem).2
    simp [h1, h2] at this
  have hin : ∀ t ∈ db.tasks, ¬(t.folder = some fid ∧ t.user = u) →
      t ∈ db.tasks.filter (fun x => !(x.folder == some fid && x.user == u)) := by
    intro t ht hn
    refine List.mem_filter.mpr ⟨ht, ?_⟩
    cases h1 : (t.folder == some fid) <;> cases h2 : (t.user == u) <;> simp_all
  cases hf : db.folders.find? (fun f => f.id == fid && f.user == u) with
  | none =>
    have hred : TaskController.deleteTaskOrFolder db u (some "folder") (some fid) =
        (⟨404, .error "Folder not found."⟩,
         { db with tasks := db.tasks.filter (fun t => !(t.folder == some fid && t.user == u)) }) := by
      simp [TaskController.deleteTaskOrFolder, htr, findOneAndDelete_fst, hf]
    refine ⟨?_, ?_, fun _ => ?_, fun hex => ?_, fun _ hex => ?_⟩
    · intro t ht h1 h2
      rw [hred]
      exact hout t ht h1 h2
    · intro t ht hn
      rw [hred]
      exact hin t ht hn
    · rw [hred]
    · rcases hex with ⟨f, hfm, h1, h2⟩
      have := List.find?_eq_none.mp hf f hfm
      simp [h1, h2] at this
    · rcases hex with ⟨f, hfm, h1, h2⟩
      have := List.find?_eq_none.mp hf f hfm
      simp [h1, h2] at this
  | some f0 =>
    have hf0mem := List.mem_of_find?_eq_some hf
    have hf0p := List.find?_some hf
    simp only [Bool.and_eq_true, beq_iff_eq] at hf0p
    have hred : TaskController.deleteTaskOrFolder db u (some "folder") (some fid) =
        (⟨200, .message "Folder and its tasks deleted successfully."⟩,
         { db with tasks := db.tasks.filter (fun t => !(t.folder == some fid && t.user == u)),
                   folders :=
                     (findOneAndDelete (fun f => f.id == fid && f.user == u) db.folders).2 }) := by
      simp [TaskController.deleteTaskOrFolder, htr, findOneAndDelete_fst, hf]
    refine ⟨?_, ?_, fun hall => ?_, fun _ => ?_, fun hWF _ => ?_⟩
    · intro t ht h1 h2
      rw [hred]
      exact hout t ht h1 h2
    · intro t ht hn
      rw [hred]
      exact hin t ht hn
    · exact absurd ⟨hf0p.1, hf0p.2⟩ (hall f0 hf0mem)
    · rw [hred]
    · simp only [DB.WF, List.nodup_append] at hWF
      obtain ⟨hTN, hFN, hdisj⟩ := hWF
      have hfound : (db.folders.find? (fun f => f.id == fid && f.user == u)).isSome := by
        rw [hf]
        rfl
      have hkey : ∀ (x : Folder), (x.id == fid && x.user == u) = true → x.id = fid := by
        intro x hx
        simp only [Bool.and_eq_true, beq_iff_eq] at hx
        exact hx.1
      constructor
      · have h1 : (TaskController.deleteTaskOrFolder db u (some "folder") (some fid)).2.tasks.find?
            (fun t => t.id == fid && t.user == u) = none := by
          rw [hred]
          rw [List.find?_eq_none]
          intro x hx
          have hxmem := (List.mem_filter.mp hx).1
          simp only [Bool.and_eq_true, beq_iff_eq, not_and]
          intro hxid _
          exact (List.disjoint_left.mp hdisj (List.mem_map_of_mem Task.id hxmem))
            (by rw [hxid, ← hf0p.1]; exact List.mem_map_of_mem Folder.id hf0mem)
        have h2 : (TaskController.deleteTaskOrFolder db u (some "folder") (some fid)).2.folders.find?
            (fun g => g.id == fid && g.user == u) = none := by
          rw [hred]
          rw [List.find?_eq_none]
          intro g hg
          have hgid := findOneAndDelete_no_key Folder.id
            (fun f => f.id == fid && f.user == u) fid hkey db.folders hFN hfound g hg
          simp only [Bool.and_eq_true, beq_iff_eq, not_and]
          intro hgid2 _
          exact hgid hgid2
        simp [TaskController.getTaskById, h1, h2]
      · intro t ht h1t h2t
        have ht1 : (TaskController.deleteTaskOrFolder db u (some "folder") (some fid)).2.tasks.find?
            (fun x => x.id == t.id && x.user == u) = none := by
          rw [hred]
          rw [List.find?_eq_none]
          intro x hx
          obtain ⟨hxmem, hxpred⟩ := List.mem_filter.mp hx
          simp only [Bool.and_eq_true, beq_iff_eq, not_and]
          intro hxid _
          have hxt : x = t := List.inj_on_of_nodup_map hTN hxmem ht hxid
          rw [hxt] at hxpred
          simp [h1t, h2t] at hxpred
        have ht2 : (TaskController.deleteTaskOrFolder db u (some "folder") (some fid)).2.folders.find?
            (fun g => g.id == t.id && g.user == u) = none := by
          rw [hred]
          rw [List.find?_eq_none]
          intro g hg
          have hgmem := mem_findOneAndDelete_snd hg
          simp only [Bool.and_eq_true, beq_iff_eq, not_and]
          intro hgid _
          exact (List.disjoint_left.mp hdisj (List.mem_map_of_mem Task.id ht))
            (by rw [← hgid]; exact List.mem_map_of_mem Folder.id hgmem)
        simp [TaskController.getTaskById, ht1, ht2]

/-- Witness for C3 at a concrete database: deleting the folder with its one
child task confirms with a 200. -/
theorem c3_folder_cascade_delete_witness :
    (TaskController.deleteTaskOrFolder
        ⟨[⟨idB, "t1", none, "Pending", some idA, "u"⟩], [⟨idA, "F", "u", [idB]⟩], 9⟩
        "u" (some "folder") (some idA)).1 =
      ⟨200, .message "Folder and its tasks deleted successfully."⟩ :=
  (c3_folder_cascade_delete
    ⟨[⟨idB, "t1", none, "Pending", some idA, "u"⟩], [⟨idA, "F", "u", [idB]⟩], 9⟩
    "u" idA (by decide)).2.2.2.1
    ⟨⟨idA, "F", "u", [idB]⟩, by decide, by decide, by decide⟩

end TaskApp
